import Mathlib

/-!
Verification of the Rapid7 InsightIDR MCP client against its specification.

The definitions below are a shallow embedding of the TypeScript sources:
  * the configuration loader `getConfig` (config module),
  * the HTTP client `Rapid7Client` (client module): URL/query construction,
    timeout handling, error classification (`handleErrorResponse`), the
    error classes `Rapid7ClientError` / `Rapid7AuthError` /
    `Rapid7RateLimitError`,
  * the `get_investigation` tool handler (investigation tools module).

JavaScript numbers produced by `parseInt` are modelled by `JsNum`
(an integer or `NaN`); JSON values by `Json`; absent / `undefined`
values by `Option`.
-/

set_option autoImplicit false

/-- A JavaScript number as produced by `parseInt`: either `NaN` or an
integer (the sources only ever produce integral numbers here). -/
inductive JsNum where
  | nan
  | int (n : Int)
  deriving DecidableEq, Repr

/-- Multiplication by 1000 as in `parseInt(...) * 1000`; `NaN * 1000 = NaN`. -/
def JsNum.mul1000 : JsNum → JsNum
  | .nan => .nan
  | .int n => .int (n * 1000)

/-- `true` iff the number is an integer strictly greater than zero
(`NaN` is not). -/
def JsNum.isPosInt : JsNum → Bool
  | .nan => false
  | .int n => 0 < n

/-- Digits-to-number accumulator for `parseIntJS`. -/
def digitsVal (ds : List Char) : Nat :=
  ds.foldl (fun a c => a * 10 + (c.toNat - 48)) 0

/-- JavaScript `parseInt(s, 10)`: skip leading whitespace, read an optional
sign, then the longest prefix of decimal digits; `NaN` when that prefix is
empty. -/
def parseIntJS (s : String) : JsNum :=
  let cs := s.data.dropWhile (fun c => c = ' ' ∨ c = '\t' ∨ c = '\n' ∨ c = '\r')
  match cs with
  | '-' :: rest =>
      let ds := rest.takeWhile Char.isDigit
      if ds.isEmpty then .nan else .int (-(digitsVal ds : Int))
  | '+' :: rest =>
      let ds := rest.takeWhile Char.isDigit
      if ds.isEmpty then .nan else .int (digitsVal ds)
  | _ =>
      let ds := cs.takeWhile Char.isDigit
      if ds.isEmpty then .nan else .int (digitsVal ds)

/-- A query-parameter value: the TypeScript type is
`string | number | boolean | undefined`, and the code additionally guards
against `null`. -/
inductive ParamValue where
  | str (s : String)
  | num (n : Int)
  | bool (b : Bool)
  | undefined
  | null
  deriving DecidableEq, Repr

/-- JavaScript `String(value)` on a query-parameter value. -/
def ParamValue.toJsString : ParamValue → String
  | .str s => s
  | .num n => toString n
  | .bool b => if b then "true" else "false"
  | .undefined => "undefined"
  | .null => "null"

/-- The guard `value !== undefined && value !== null` from the client's
query-parameter loop. -/
def ParamValue.isPresent : ParamValue → Bool
  | .undefined => false
  | .null => false
  | _ => true

/-- `URLSearchParams.set`: replace the value at the first occurrence of the
key, or append the pair when the key is absent. -/
def searchParamsSet : List (String × String) → String → String → List (String × String)
  | [], k, v => [(k, v)]
  | (k', v') :: rest, k, v =>
      if k' = k then (k, v) :: rest else (k', v') :: searchParamsSet rest k v

/-- The query-parameter loop of `Rapid7Client.request`:
`for (const [key, value] of Object.entries(params)) if (value !== undefined
&& value !== null) url.searchParams.set(key, String(value))`. -/
def appendQueryParams (qs : List (String × String)) :
    List (String × ParamValue) → List (String × String)
  | [] => qs
  | (k, v) :: rest =>
      if v.isPresent then appendQueryParams (searchParamsSet qs k v.toJsString) rest
      else appendQueryParams qs rest

/-- The full query-parameter list built by `Rapid7Client.request` from the
caller's `params` mapping (starting from an empty query string). -/
def buildQuery (params : List (String × ParamValue)) : List (String × String) :=
  appendQueryParams [] params

/-- Render a query list as the URL query string (`k=v` pairs joined
by `&`; the example values need no percent-encoding). -/
def renderQuery (qs : List (String × String)) : String :=
  String.intercalate "&" (qs.map fun kv => kv.1 ++ "=" ++ kv.2)

/-- `baseUrl.replace(/\/+$/, "")` from `getConfig`: strip every trailing
slash. -/
def stripTrailingSlashes (s : String) : String :=
  ⟨(s.data.reverse.dropWhile (fun c => c = '/')).reverse⟩

/-- The URL join in `Rapid7Client.request`: plain string concatenation of
the configured base URL with the endpoint path. -/
def joinUrl (base path : String) : String := base ++ path

/-- `true` iff the character list contains two adjacent occurrences of `c`. -/
def hasDoubleChar (c : Char) : List Char → Bool
  | a :: b :: rest => (a = c ∧ b = c : Bool) || hasDoubleChar c (b :: rest)
  | _ => false

/-- A JSON value (response and request bodies). `num` carries an integer:
the claims under verification never depend on fractional numerics. -/
inductive Json where
  | null
  | bool (b : Bool)
  | num (n : Int)
  | str (s : String)
  | arr (xs : List Json)
  | obj (fields : List (String × Json))
  deriving Repr

/-- JavaScript truthiness of a JSON value (`0`, `""`, `false`, `null`
are falsy; arrays and objects are always truthy). -/
def Json.jsTruthy : Json → Bool
  | .null => false
  | .bool b => b
  | .num n => decide (n ≠ 0)
  | .str s => decide (s ≠ "")
  | .arr _ => true
  | .obj _ => true

mutual
/-- JavaScript string interpolation of a JSON value (`${v}`). -/
def Json.interp : Json → String
  | .null => "null"
  | .bool b => if b then "true" else "false"
  | .num n => toString n
  | .str s => s
  | .arr xs => Json.interpList xs
  | .obj _ => "[object Object]"

/-- `Array.prototype.toString`: elements joined by commas. -/
def Json.interpList : List Json → String
  | [] => ""
  | [x] => Json.interp x
  | x :: y :: rest => Json.interp x ++ "," ++ Json.interpList (y :: rest)
end

mutual
/-- `JSON.stringify` (minimal string escaping; the claims never inspect
the serialized text). -/
def Json.stringify : Json → String
  | .null => "null"
  | .bool b => if b then "true" else "false"
  | .num n => toString n
  | .str s => "\"" ++ s ++ "\""
  | .arr xs => "[" ++ Json.stringifyList xs ++ "]"
  | .obj fs => "\x7b" ++ Json.stringifyFields fs ++ "\x7d"

def Json.stringifyList : List Json → String
  | [] => ""
  | [x] => Json.stringify x
  | x :: y :: rest => Json.stringify x ++ "," ++ Json.stringifyList (y :: rest)

def Json.stringifyFields : List (String × Json) → String
  | [] => ""
  | [(k, v)] => "\"" ++ k ++ "\":" ++ Json.stringify v
  | (k, v) :: f :: rest =>
      "\"" ++ k ++ "\":" ++ Json.stringify v ++ "," ++ Json.stringifyFields (f :: rest)
end

/-- Property lookup `j.k` on a JSON value, as `Option` (`none` models
JavaScript `undefined`; only objects have own properties here). -/
def Json.getField (j : Json) (k : String) : Option Json :=
  match j with
  | .obj fs => fs.lookup k
  | _ => none

/-- The errors raised by the client: `Rapid7ClientError (message,
statusCode?)`, its subclass `Rapid7AuthError`, and `Rapid7RateLimitError`
whose constructor always passes `429` as the status code and stores the
optional `retryAfter` number. -/
inductive Rapid7Error where
  | client (message : String) (statusCode : Option Nat)
  | auth (message : String) (statusCode : Option Nat)
  | rateLimit (message : String) (retryAfter : Option JsNum)
  deriving DecidableEq, Repr

/-- The `message` property of the error. -/
def Rapid7Error.message : Rapid7Error → String
  | .client m _ => m
  | .auth m _ => m
  | .rateLimit m _ => m

/-- The `statusCode` property: `Rapid7RateLimitError`'s constructor calls
`super(message, 429)`, so its status code is always `429`. -/
def Rapid7Error.statusCode : Rapid7Error → Option Nat
  | .client _ sc => sc
  | .auth _ sc => sc
  | .rateLimit _ _ => some 429

/-- The `retryAfter` property (`none` on the other error classes). -/
def Rapid7Error.retryAfterSeconds : Rapid7Error → Option JsNum
  | .rateLimit _ ra => ra
  | _ => none

/-- An HTTP response as the client observes it: status, status text, the
`Retry-After` header (`none` when absent), and the body as parsed JSON
(`none` when the body fails to parse as JSON). -/
structure HttpResponse where
  status : Nat
  statusText : String
  retryAfterHeader : Option String
  body : Option Json
  deriving Repr

/-- `response.ok`: status in the range 200–299. -/
def responseOk (status : Nat) : Bool := 200 ≤ status && status ≤ 299

/-- The diagnostic message assembled by `handleErrorResponse`:
`"<status> <statusText>"`, extended with the body's `message` field when
the body parses to JSON and that field is truthy (property access on a
non-object yields `undefined`; the `null` body case throws inside the
`try` and is swallowed by the empty `catch`). -/
def errorMsgOf (status : Nat) (statusText : String) (body : Option Json) : String :=
  let base := toString status ++ " " ++ statusText
  match body with
  | some (.obj fs) =>
      match fs.lookup "message" with
      | some m => if m.jsTruthy then base ++ ": " ++ m.interp else base
      | none => base
  | _ => base

/-- `retryAfter ? parseInt(retryAfter, 10) : undefined`: the header string
is truthy iff present and non-empty; a truthy header is parsed with
`parseInt`, which yields `NaN` on a string with no leading digits. -/
def computeRetryAfter (header : Option String) : Option JsNum :=
  match header with
  | none => none
  | some s => if s = "" then none else some (parseIntJS s)

/-- `Rapid7Client.handleErrorResponse`: classify a non-success response
and raise exactly one error. -/
def handleErrorResponse (r : HttpResponse) : Rapid7Error :=
  let errorMsg := errorMsgOf r.status r.statusText r.body
  if r.status = 401 ∨ r.status = 403 then
    .auth ("Authentication failed: " ++ errorMsg) (some r.status)
  else if r.status = 429 then
    .rateLimit ("Rate limited: " ++ errorMsg) (computeRetryAfter r.retryAfterHeader)
  else
    .client ("Request failed: " ++ errorMsg) (some r.status)

/-- A JavaScript exception thrown by the transport (`fetch`): whether it is
an `instanceof Error`, and its `name` and `message` properties. -/
structure JsError where
  isError : Bool
  name : String
  message : String
  deriving DecidableEq, Repr

/-- How the awaited `fetch` call settles: a response, or a thrown error. -/
inductive TransportOutcome where
  | success (r : HttpResponse)
  | thrown (e : JsError)
  deriving Repr

/-- How `Rapid7Client.request` settles: a decoded JSON body, a raised
classified `Rapid7Error`, or a non-classified error propagated to the
caller unmodified. -/
inductive RequestOutcome where
  | ok (body : Json)
  | apiError (e : Rapid7Error)
  | propagated (e : JsError)
  deriving Repr

/-- `Rapid7Client.request` after URL construction, as a function of the
configured timeout and the transport outcome:
catch — clear the timer, wrap an `AbortError` as a timeout
`Rapid7ClientError` (no status code), rethrow anything else unmodified;
then clear the timer, classify a non-ok status via `handleErrorResponse`,
return `{}` on 204, otherwise parse the body as JSON (a parse failure on a
success response throws a `SyntaxError`, not a classified error). -/
def request (timeout : Nat) (t : TransportOutcome) : RequestOutcome :=
  match t with
  | .thrown e =>
      if e.isError && e.name == "AbortError" then
        .apiError (.client ("InsightIDR API timeout after " ++ toString timeout ++ "ms") none)
      else
        .propagated e
  | .success r =>
      if !responseOk r.status then
        .apiError (handleErrorResponse r)
      else if r.status = 204 then
        .ok (.obj [])
      else
        match r.body with
        | some j => .ok j
        | none => .propagated ⟨true, "SyntaxError", "Unexpected end of JSON input"⟩

/-- Timer events of one `request` call. -/
inductive TimerEvent where
  | start
  | clear
  deriving DecidableEq, Repr

/-- The timer trace of `Rapid7Client.request`: `createAbortSignal` starts
the timer before `fetch`; the `catch` block calls `clear()` before
rethrowing, and the fall-through after the `try` calls `clear()` before
any of the later exits (classification, 204 return, body parse). -/
def requestTimerTrace (t : TransportOutcome) : List TimerEvent :=
  [.start] ++
  match t with
  | .thrown _ => [.clear]
  | .success _ => [.clear]

/-- Number of timers started but never cleared by the end of the trace. -/
def timersLeftRunning (es : List TimerEvent) : Int :=
  es.foldl (fun n e => match e with | .start => n + 1 | .clear => n - 1) 0

/-- The environment variables read by `getConfig`. -/
structure Env where
  RAPID7_API_KEY : Option String
  RAPID7_REGION : Option String
  RAPID7_BASE_URL : Option String
  RAPID7_TIMEOUT : Option String
  deriving Repr

/-- The region-to-URL table `REGION_URLS` from the config module. -/
def REGION_URLS : List (String × String) :=
  [("us", "https://us.api.insight.rapid7.com"),
   ("us2", "https://us2.api.insight.rapid7.com"),
   ("us3", "https://us3.api.insight.rapid7.com"),
   ("eu", "https://eu.api.insight.rapid7.com"),
   ("ca", "https://ca.api.insight.rapid7.com"),
   ("au", "https://au.api.insight.rapid7.com"),
   ("ap", "https://ap.api.insight.rapid7.com")]

/-- The configuration record built by `getConfig` (`timeout` is in
milliseconds and is a JavaScript number: `parseInt` can yield `NaN`). -/
structure Rapid7Config where
  baseUrl : String
  apiKey : String
  region : String
  timeout : JsNum
  deriving DecidableEq, Repr

/-- `String.prototype.toLowerCase` (character-wise lowering). -/
def toLowerJS (s : String) : String :=
  ⟨s.data.map Char.toLower⟩

/-- `process.env.RAPID7_REGION || "us"` then `.toLowerCase()`. -/
def resolveRegion (v : Option String) : String :=
  toLowerJS
    (match v with
     | some r => if r = "" then "us" else r
     | none => "us")

/-- The local `timeout` of `getConfig`:
`parseInt(process.env.RAPID7_TIMEOUT ?? "30", 10) * 1000` — no
validation of the parsed value. -/
def configTimeout (env : Env) : JsNum :=
  (parseIntJS (env.RAPID7_TIMEOUT.getD "30")).mul1000

/-- The local `baseUrl` of `getConfig` before the region fallback:
`process.env.RAPID7_BASE_URL`, with the falsy empty string treated as
absent by the `if (!baseUrl)` guard. -/
def configOverride (env : Env) : Option String :=
  match env.RAPID7_BASE_URL with
  | some b => if b = "" then none else some b
  | none => none

/-- `getConfig`: throw when the API key is absent or empty; resolve the
region with default `us`; take the base-URL override when truthy, else
look the region up in `REGION_URLS`, throwing when unknown; compute
`timeout = parseInt(RAPID7_TIMEOUT ?? "30", 10) * 1000` (no validation);
strip trailing slashes off the base URL. Error message texts are
abbreviated. -/
def getConfig (env : Env) : Except String Rapid7Config :=
  match env.RAPID7_API_KEY with
  | none => .error "RAPID7_API_KEY environment variable is required."
  | some apiKey =>
      if apiKey = "" then .error "RAPID7_API_KEY environment variable is required."
      else
        match configOverride env with
        | some b =>
            .ok ⟨stripTrailingSlashes b, apiKey, resolveRegion env.RAPID7_REGION,
              configTimeout env⟩
        | none =>
            match REGION_URLS.lookup (resolveRegion env.RAPID7_REGION) with
            | some b =>
                .ok ⟨stripTrailingSlashes b, apiKey, resolveRegion env.RAPID7_REGION,
                  configTimeout env⟩
            | none => .error "Unknown RAPID7_REGION."

/-- The non-throwing result every tool handler returns to the MCP host:
a JSON payload plus the `isError` flag. -/
structure ToolResult where
  payload : Json
  isError : Bool
  deriving Repr

/-- The success payload shaped by the `get_investigation` handler from the
investigation object and the timeline data (field access on a missing key
is JavaScript `undefined`, rendered here as `null`; the `timeline` field
carries the timeline list). -/
def shapeInvestigation (inv : Json) (timeline : List Json) : Json :=
  let f := fun k => (inv.getField k).getD .null
  .obj [("id", f "id"), ("rrn", f "rrn"), ("title", f "title"),
        ("status", f "status"), ("priority", f "priority"),
        ("disposition", f "disposition"), ("assignee", f "assignee"),
        ("created_time", f "created_time"), ("last_accessed", f "last_accessed"),
        ("source", f "source"), ("organization_id", f "organization_id"),
        ("threat_type", f "threat_type"), ("responsibility", f "responsibility"),
        ("tags", f "tags"),
        ("alerts_most_recent_evidence", f "alerts_most_recent_evidence"),
        ("alerts_most_recent_created_time", f "alerts_most_recent_created_time"),
        ("timeline", .arr timeline)]

/-- The `get_investigation` tool handler: `Promise.all` of the primary
investigation fetch and the timeline fetch, where only the timeline
promise carries `.catch(() => ({ data: [] }))`; so a timeline failure
degrades to an empty list, while a primary failure rejects the
`Promise.all` and is caught by the handler's `catch`, which returns a
structured `{ error }` payload with `isError: true` instead of throwing. -/
def getInvestigationHandler (invResult : Except Rapid7Error Json)
    (timelineResult : Except Rapid7Error (List Json)) : ToolResult :=
  let timelineData :=
    match timelineResult with
    | .ok t => t
    | .error _ => []
  match invResult with
  | .ok invResponse =>
      let inv := (invResponse.getField "data").getD .null
      ⟨shapeInvestigation inv timelineData, false⟩
  | .error e =>
      ⟨.obj [("error", .str e.message)], true⟩

/-- JavaScript truthiness of an optional value (`undefined` is falsy). -/
def jsTruthyOpt : Option Json → Bool
  | none => false
  | some j => j.jsTruthy

/-- The body option handed to `fetch` by `Rapid7Client.request`:
`body: body ? JSON.stringify(body) : undefined`. -/
def fetchBody (body : Option Json) : Option String :=
  match body with
  | none => none
  | some j => if j.jsTruthy then some j.stringify else none

/-- `needle` occurs as a contiguous substring of `hay`. -/
def ContainsStr (hay needle : String) : Prop :=
  ∃ pre post : List Char, hay.data = pre ++ needle.data ++ post

theorem string_data_append (a b : String) : (a ++ b).data = a.data ++ b.data := rfl

/-- C10: the request body is transmitted iff the supplied body value is
truthy; in particular the falsy JSON values `false`, `0`, `""` and `null`
are never transmitted as a request body. -/
theorem C10_body_iff_truthy (body : Option Json) :
    (fetchBody body).isSome = jsTruthyOpt body ∧
    fetchBody (some (.bool false)) = none ∧
    fetchBody (some (.num 0)) = none ∧
    fetchBody (some (.str "")) = none ∧
    fetchBody (some .null) = none := by
  refine ⟨?_, rfl, rfl, rfl, rfl⟩
  cases body with
  | none => rfl
  | some j => simp only [fetchBody, jsTruthyOpt]; split <;> simp_all

/-- C6: every exit path of `request` — success, classified failure,
timeout, and transport error — starts the cancellation timer exactly once
and clears it exactly once, so no timer is left running. -/
theorem C6_no_leaked_timers (t : TransportOutcome) :
    timersLeftRunning (requestTimerTrace t) = 0 ∧
    (requestTimerTrace t).count .start = 1 ∧
    (requestTimerTrace t).count .clear = 1 := by
  cases t <;> exact ⟨rfl, rfl, rfl⟩

/-- C5: every successful response with status 204 decodes to the empty
object, regardless of the response body content. -/
theorem C5_204_empty_object (timeout : Nat) (r : HttpResponse)
    (h : r.status = 204) :
    request timeout (.success r) = .ok (.obj []) := by
  simp [request, h, responseOk]

theorem C5_witness :
    (204 : Nat) = 204 ∧
    request 30000 (.success ⟨204, "No Content", none,
      some (.obj [("data", .str "ignored")])⟩) = .ok (.obj []) :=
  ⟨rfl, C5_204_empty_object 30000
    ⟨204, "No Content", none, some (.obj [("data", .str "ignored")])⟩ rfl⟩

/-- C7: in the `get_investigation` handler, a failed timeline fetch
degrades to an empty timeline on a successful primary fetch, and every
failure raised out of the core is converted into a structured error
payload with `isError` set, never an exception. -/
theorem C7_handler_recovery (j : Json) (e e' : Rapid7Error)
    (tl : Except Rapid7Error (List Json)) :
    (getInvestigationHandler (.ok j) (.error e)).isError = false ∧
    (getInvestigationHandler (.ok j) (.error e)).payload.getField "timeline"
      = some (.arr []) ∧
    getInvestigationHandler (.error e') tl
      = ⟨.obj [("error", .str e'.message)], true⟩ := by
  refine ⟨rfl, rfl, ?_⟩
  cases tl <;> rfl

theorem errorMsgOf_data (s : Nat) (st : String) (b : Option Json) :
    ∃ tail, (errorMsgOf s st b).data = (toString s).data ++ tail := by
  unfold errorMsgOf
  cases b with
  | none =>
      exact ⟨(" " ++ st).data, by simp [string_data_append]⟩
  | some j =>
      cases j with
      | obj fs =>
          cases h : fs.lookup "message" with
          | none => exact ⟨(" " ++ st).data, by simp [h, string_data_append]⟩
          | some m =>
              by_cases hm : m.jsTruthy
              · exact ⟨(" " ++ st).data ++ (": " ++ m.interp).data,
                  by simp [h, hm, string_data_append]⟩
              · exact ⟨(" " ++ st).data, by simp [h, hm, string_data_append]⟩
      | null => exact ⟨(" " ++ st).data, by simp [string_data_append]⟩
      | bool v => exact ⟨(" " ++ st).data, by simp [string_data_append]⟩
      | num n => exact ⟨(" " ++ st).data, by simp [string_data_append]⟩
      | str v => exact ⟨(" " ++ st).data, by simp [string_data_append]⟩
      | arr xs => exact ⟨(" " ++ st).data, by simp [string_data_append]⟩

/-- C3: an `AbortError` from the transport (the timeout timer fired) is
wrapped as a `Rapid7ClientError` whose message contains the configured
timeout in milliseconds and which carries no status code; any other
transport-level failure is propagated to the caller unmodified. -/
theorem C3_timeout_and_transport (timeout : Nat) (m : String) (e : JsError)
    (he : ¬ (e.isError = true ∧ e.name = "AbortError")) :
    (∃ msg, request timeout (.thrown ⟨true, "AbortError", m⟩) =
        .apiError (.client msg none) ∧
      ContainsStr msg (toString timeout ++ "ms")) ∧
    request timeout (.thrown e) = .propagated e := by
  constructor
  · refine ⟨"InsightIDR API timeout after " ++ toString timeout ++ "ms", rfl, ?_⟩
    exact ⟨("InsightIDR API timeout after ").data, [],
      by simp [string_data_append]⟩
  · have hb : (e.isError && e.name == "AbortError") = false := by
      cases h1 : e.isError with
      | false => simp
      | true =>
          have hn : e.name ≠ "AbortError" := fun hn => he ⟨h1, hn⟩
          simp [hn]
    simp [request, hb]

theorem C3_witness :
    (¬ ((true : Bool) = true ∧ ("TypeError" : String) = "AbortError")) ∧
    ((∃ msg, request 30000 (.thrown ⟨true, "AbortError", "The operation was aborted"⟩) =
        .apiError (.client msg none) ∧
      ContainsStr msg (toString 30000 ++ "ms")) ∧
    request 30000 (.thrown ⟨true, "TypeError", "fetch failed"⟩) =
      .propagated ⟨true, "TypeError", "fetch failed"⟩) := by
  have h : ¬ (((⟨true, "TypeError", "fetch failed"⟩ : JsError).isError = true) ∧
      ((⟨true, "TypeError", "fetch failed"⟩ : JsError).name = "AbortError")) := by
    intro hc
    exact absurd hc.2 (by decide)
  exact ⟨by intro hc; exact absurd hc.2 (by decide),
    C3_timeout_and_transport 30000 "The operation was aborted"
      ⟨true, "TypeError", "fetch failed"⟩ h⟩

/-- C1: classification of non-success responses is total and exclusive:
`request` yields exactly one classified failure; on 401/403 an auth error
carrying the response status, on any other non-2xx status except 429 a
generic client error carrying the response status and a message containing
the numeric status. -/
theorem C1_classification_total (timeout : Nat) (r : HttpResponse)
    (h : responseOk r.status = false) :
    ∃ e, request timeout (.success r) = .apiError e ∧
      ((r.status = 401 ∨ r.status = 403) → ∃ m, e = .auth m (some r.status)) ∧
      (r.status = 429 → ∃ m ra, e = .rateLimit m ra) ∧
      (r.status ≠ 401 → r.status ≠ 403 → r.status ≠ 429 →
        ∃ m, e = .client m (some r.status) ∧ ContainsStr m (toString r.status)) := by
  refine ⟨handleErrorResponse r, by simp [request, h], ?_, ?_, ?_⟩
  · intro hs
    exact ⟨"Authentication failed: " ++ errorMsgOf r.status r.statusText r.body,
      by simp [handleErrorResponse, hs]⟩
  · intro hs
    refine ⟨"Rate limited: " ++ errorMsgOf r.status r.statusText r.body,
      computeRetryAfter r.retryAfterHeader, ?_⟩
    have h401 : ¬ (r.status = 401 ∨ r.status = 403) := by
      rintro (h1 | h1) <;> omega
    simp [handleErrorResponse, h401, hs]
  · intro h1 h2 h3
    refine ⟨"Request failed: " ++ errorMsgOf r.status r.statusText r.body, ?_, ?_⟩
    · have hno : ¬ (r.status = 401 ∨ r.status = 403) := by
        rintro (hx | hx) <;> simp_all
      simp [handleErrorResponse, hno, h3]
    · obtain ⟨tail, htail⟩ := errorMsgOf_data r.status r.statusText r.body
      exact ⟨("Request failed: ").data, tail, by simp [string_data_append, htail]⟩

theorem C1_witness :
    responseOk 500 = false ∧
    (∃ e, request 30000 (.success ⟨500, "Internal Server Error", none, none⟩)
        = .apiError e ∧
      (((500 : Nat) = 401 ∨ (500 : Nat) = 403) → ∃ m, e = .auth m (some 500)) ∧
      ((500 : Nat) = 429 → ∃ m ra, e = .rateLimit m ra) ∧
      ((500 : Nat) ≠ 401 → (500 : Nat) ≠ 403 → (500 : Nat) ≠ 429 →
        ∃ m, e = .client m (some 500) ∧ ContainsStr m (toString (500 : Nat)))) :=
  ⟨rfl, C1_classification_total 30000 ⟨500, "Internal Server Error", none, none⟩ rfl⟩

/-- C2 counterexample: with status 429 and header `Retry-After: later`
(present but not parseable), the raised error's `retryAfter` is `NaN`,
not `undefined` as the claim states. -/
theorem C2_counterexample :
    (handleErrorResponse ⟨429, "Too Many Requests", some "later", none⟩).retryAfterSeconds
      = some .nan ∧
    (handleErrorResponse
      ⟨429, "Too Many Requests", some "later", none⟩).retryAfterSeconds.isSome = true :=
  ⟨rfl, rfl⟩

/-- C2 (amended): for every 429 response the raised rate-limit error has
status code 429 regardless of the body; `retryAfter` is the `parseInt` of
the `Retry-After` header: the parsed integer when the header is present
and parseable, `undefined` when the header is absent or empty, but `NaN`
(not `undefined`) when the header is present, non-empty and unparseable. -/
theorem C2_rate_limit_amended (r : HttpResponse) (h : r.status = 429) :
    (handleErrorResponse r).statusCode = some 429 ∧
    (∃ m, handleErrorResponse r =
      .rateLimit m (computeRetryAfter r.retryAfterHeader)) ∧
    (r.retryAfterHeader = none →
      (handleErrorResponse r).retryAfterSeconds = none) ∧
    (r.retryAfterHeader = some "" →
      (handleErrorResponse r).retryAfterSeconds = none) ∧
    (∀ s n, r.retryAfterHeader = some s → parseIntJS s = .int n →
      (handleErrorResponse r).retryAfterSeconds = some (.int n)) ∧
    (∀ s, r.retryAfterHeader = some s → s ≠ "" → parseIntJS s = .nan →
      (handleErrorResponse r).retryAfterSeconds = some .nan) := by
  have h401 : ¬ (r.status = 401 ∨ r.status = 403) := by
    rintro (h1 | h1) <;> omega
  have hmain : handleErrorResponse r =
      .rateLimit ("Rate limited: " ++ errorMsgOf r.status r.statusText r.body)
        (computeRetryAfter r.retryAfterHeader) := by
    simp [handleErrorResponse, h401, h]
  refine ⟨by rw [hmain]; rfl, ⟨_, hmain⟩, ?_, ?_, ?_, ?_⟩
  · intro hh
    rw [hmain]
    simp [Rapid7Error.retryAfterSeconds, computeRetryAfter, hh]
  · intro hh
    rw [hmain]
    simp [Rapid7Error.retryAfterSeconds, computeRetryAfter, hh]
  · intro s n hh hp
    rw [hmain]
    have hs : s ≠ "" := by
      intro he
      rw [he, show parseIntJS "" = JsNum.nan from rfl] at hp
      exact JsNum.noConfusion hp
    simp [Rapid7Error.retryAfterSeconds, computeRetryAfter, hh, hs, hp]
  · intro s hh hs hp
    rw [hmain]
    simp [Rapid7Error.retryAfterSeconds, computeRetryAfter, hh, hs, hp]

theorem C2_witness :
    ((429 : Nat) = 429) ∧
    (handleErrorResponse ⟨429, "Too Many Requests", some "30",
      some (.obj [("message", .str "slow down")])⟩).statusCode = some 429 ∧
    (handleErrorResponse ⟨429, "Too Many Requests", some "30",
      some (.obj [("message", .str "slow down")])⟩).retryAfterSeconds
      = some (.int 30) ∧
    (handleErrorResponse ⟨429, "Too Many Requests", none, none⟩).retryAfterSeconds
      = none := by
  have h1 := C2_rate_limit_amended
    ⟨429, "Too Many Requests", some "30", some (.obj [("message", .str "slow down")])⟩ rfl
  have h2 := C2_rate_limit_amended ⟨429, "Too Many Requests", none, none⟩ rfl
  exact ⟨rfl, h1.1, h1.2.2.2.2.1 "30" 30 rfl rfl, h2.2.2.1 rfl⟩

theorem searchParamsSet_not_mem (qs : List (String × String)) (k v : String)
    (h : k ∉ qs.map Prod.fst) : searchParamsSet qs k v = qs ++ [(k, v)] := by
  induction qs with
  | nil => rfl
  | cons p rest ih =>
      obtain ⟨k', v'⟩ := p
      simp only [List.map_cons, List.mem_cons] at h
      push_neg at h
      simp [searchParamsSet, Ne.symm h.1, ih h.2]

theorem appendQueryParams_eq (params : List (String × ParamValue)) :
    ∀ qs : List (String × String),
    (params.map Prod.fst).Nodup →
    (∀ k ∈ params.map Prod.fst, k ∉ qs.map Prod.fst) →
    appendQueryParams qs params =
      qs ++ (params.filter (fun kv => kv.2.isPresent)).map
        (fun kv => (kv.1, kv.2.toJsString)) := by
  induction params with
  | nil => intro qs _ _; simp [appendQueryParams]
  | cons p rest ih =>
      intro qs hnodup hdisj
      obtain ⟨k, v⟩ := p
      simp only [List.map_cons, List.nodup_cons] at hnodup
      by_cases hv : v.isPresent
      · rw [show appendQueryParams qs ((k, v) :: rest) =
            appendQueryParams (searchParamsSet qs k v.toJsString) rest from by
              simp [appendQueryParams, hv]]
        rw [searchParamsSet_not_mem qs k v.toJsString (hdisj k (by simp))]
        rw [ih (qs ++ [(k, v.toJsString)]) hnodup.2 ?_]
        · simp [hv]
        · intro k' hk'
          simp only [List.map_append, List.map_cons, List.map_nil, List.mem_append,
            List.mem_singleton]
          push_neg
          refine ⟨hdisj k' (by simp [hk']), ?_⟩
          intro he
          exact hnodup.1 (he ▸ hk')
      · rw [show appendQueryParams qs ((k, v) :: rest) = appendQueryParams qs rest from by
            simp [appendQueryParams, hv]]
        rw [ih qs hnodup.2 (fun k' hk' => hdisj k' (by simp [hk']))]
        simp [hv]

/-- C4: query-parameter entries with `undefined`/`null` values are omitted
from the URL; every other entry appears string-coerced in input order; for
the input `a: "x", b: undefined, c: 3, d: false` the query string is
exactly `a=x&c=3&d=false`. -/
theorem C4_query_params (params : List (String × ParamValue))
    (h : (params.map Prod.fst).Nodup) :
    buildQuery params =
      (params.filter (fun kv => kv.2.isPresent)).map
        (fun kv => (kv.1, kv.2.toJsString)) ∧
    renderQuery (buildQuery
      [("a", .str "x"), ("b", .undefined), ("c", .num 3), ("d", .bool false)]) =
      "a=x&c=3&d=false" := by
  refine ⟨?_, rfl⟩
  have := appendQueryParams_eq params [] h (by simp)
  simpa [buildQuery] using this

theorem C4_witness :
    (([("a", ParamValue.str "x"), ("b", ParamValue.undefined), ("c", ParamValue.num 3),
        ("d", ParamValue.bool false)].map Prod.fst).Nodup) ∧
    buildQuery [("a", ParamValue.str "x"), ("b", ParamValue.undefined),
        ("c", ParamValue.num 3), ("d", ParamValue.bool false)] =
      ([("a", ParamValue.str "x"), ("b", ParamValue.undefined), ("c", ParamValue.num 3),
        ("d", ParamValue.bool false)].filter (fun kv => kv.2.isPresent)).map
        (fun kv => (kv.1, kv.2.toJsString)) :=
  ⟨by decide, (C4_query_params [("a", ParamValue.str "x"), ("b", ParamValue.undefined),
    ("c", ParamValue.num 3), ("d", ParamValue.bool false)] (by decide)).1⟩

theorem stripTrailingSlashes_data (s : String) :
    (stripTrailingSlashes s).data = s.data.rdropWhile (fun c => c = '/') := rfl

theorem stripTrailingSlashes_no_trailing (s : String) :
    (stripTrailingSlashes s).data.getLast? ≠ some '/' := by
  rw [stripTrailingSlashes_data]
  intro h
  have hne : s.data.rdropWhile (fun c => decide (c = '/')) ≠ [] := by
    intro hnil
    rw [hnil] at h
    exact Option.noConfusion h
  have hlast := List.rdropWhile_last_not (fun c => decide (c = '/')) s.data hne
  rw [List.getLast?_eq_getLast_of_ne_nil hne] at h
  have : (s.data.rdropWhile (fun c => decide (c = '/'))).getLast hne = '/' :=
    Option.some.inj h
  simp [this] at hlast

theorem hasDoubleChar_append (c : Char) (l2 : List Char) :
    ∀ l1 : List Char, l1.getLast? ≠ some c →
      hasDoubleChar c (l1 ++ l2) = true →
      hasDoubleChar c l1 = true ∨ hasDoubleChar c l2 = true := by
  intro l1
  induction l1 with
  | nil => intro _ h; exact Or.inr h
  | cons x xs ih =>
      intro hl h
      cases xs with
      | nil =>
          have hx : x ≠ c := by
            intro hc
            exact hl (by simp [hc])
          cases l2 with
          | nil => exact absurd h (by simp [hasDoubleChar])
          | cons y ys =>
              right
              have h' : hasDoubleChar c (x :: y :: ys) = true := h
              rw [show hasDoubleChar c (x :: y :: ys) =
                  ((x = c ∧ y = c : Bool) || hasDoubleChar c (y :: ys)) from rfl] at h'
              simp only [Bool.or_eq_true, decide_eq_true_eq] at h'
              rcases h' with ⟨hxc, _⟩ | hrest
              · exact absurd hxc hx
              · exact hrest
      | cons z zs =>
          have hl' : (z :: zs).getLast? ≠ some c := by
            rwa [List.getLast?_cons_cons] at hl
          have h' : ((x = c ∧ z = c : Bool) ||
              hasDoubleChar c (z :: (zs ++ l2))) = true := h
          simp only [Bool.or_eq_true, decide_eq_true_eq] at h'
          rcases h' with ⟨hxc, hzc⟩ | hrest
          · left
            rw [show hasDoubleChar c (x :: z :: zs) =
                ((x = c ∧ z = c : Bool) || hasDoubleChar c (z :: zs)) from rfl]
            simp [hxc, hzc]
          · rcases ih hl' hrest with hleft | hright
            · left
              rw [show hasDoubleChar c (x :: z :: zs) =
                  ((x = c ∧ z = c : Bool) || hasDoubleChar c (z :: zs)) from rfl]
              simp [hleft]
            · exact Or.inr hright

/-- C8: configuration strips every trailing slash from the base URL, so
the normalized base URL never ends in a slash; joining it with a path
introduces no doubled slash at the join point (any doubled slash in the
joined URL was already inside one of the two parts); the example base URL
with three trailing slashes normalizes as specified. -/
theorem C8_base_url_normalization (s path : String) :
    (stripTrailingSlashes s).data.getLast? ≠ some '/' ∧
    (hasDoubleChar '/' (joinUrl (stripTrailingSlashes s) path).data = true →
      hasDoubleChar '/' (stripTrailingSlashes s).data = true ∨
      hasDoubleChar '/' path.data = true) ∧
    stripTrailingSlashes "https://us.api.example.com///" = "https://us.api.example.com" := by
  refine ⟨stripTrailingSlashes_no_trailing s, ?_, rfl⟩
  intro h
  have hj : (joinUrl (stripTrailingSlashes s) path).data =
      (stripTrailingSlashes s).data ++ path.data := rfl
  rw [hj] at h
  exact hasDoubleChar_append '/' path.data (stripTrailingSlashes s).data
    (stripTrailingSlashes_no_trailing s) h

theorem C8_witness :
    hasDoubleChar '/'
      (joinUrl (stripTrailingSlashes "https://us.api.example.com///") "/idr/v2/alerts").data
      = true ∧
    (hasDoubleChar '/' (stripTrailingSlashes "https://us.api.example.com///").data = true ∨
      hasDoubleChar '/' ("/idr/v2/alerts" : String).data = true) := by
  have h : hasDoubleChar '/'
      (joinUrl (stripTrailingSlashes "https://us.api.example.com///") "/idr/v2/alerts").data
      = true := by decide
  exact ⟨h, (C8_base_url_normalization "https://us.api.example.com///" "/idr/v2/alerts").2.1 h⟩

/-- C9 counterexample: with the API key set and `RAPID7_TIMEOUT=0`,
`getConfig` succeeds but the returned `timeout` is `0` milliseconds,
which is not a positive integer. -/
theorem C9_counterexample :
    getConfig ⟨some "key", none, none, some "0"⟩ =
      .ok ⟨"https://us.api.insight.rapid7.com", "key", "us", .int 0⟩ ∧
    JsNum.isPosInt (.int 0) = false :=
  ⟨rfl, rfl⟩

/-- C9 (amended): whenever `getConfig` succeeds, the returned `timeout` is
exactly `parseInt(RAPID7_TIMEOUT ?? "30", 10) * 1000` with no positivity
validation: it is the positive integer 30000 when the variable is unset,
and `n * 1000` whenever the variable parses to the integer `n` — including
zero and negative values — and `NaN` when the variable does not parse. -/
theorem C9_timeout_amended (env : Env) (c : Rapid7Config)
    (h : getConfig env = .ok c) :
    c.timeout = configTimeout env ∧
    (env.RAPID7_TIMEOUT = none → c.timeout = .int 30000) ∧
    (∀ s n, env.RAPID7_TIMEOUT = some s → parseIntJS s = .int n →
      c.timeout = .int (n * 1000)) ∧
    (∀ s, env.RAPID7_TIMEOUT = some s → parseIntJS s = .nan →
      c.timeout = .nan) := by
  have ht : c.timeout = configTimeout env := by
    unfold getConfig at h
    split at h
    · exact Except.noConfusion h
    · split at h
      · exact Except.noConfusion h
      · split at h
        · have h2 := Except.ok.inj h
          subst h2
          rfl
        · split at h
          · have h2 := Except.ok.inj h
            subst h2
            rfl
          · exact Except.noConfusion h
  refine ⟨ht, ?_, ?_, ?_⟩
  · intro hn
    rw [ht]
    simp [configTimeout, hn]
    rfl
  · intro s n hs hp
    rw [ht]
    simp [configTimeout, hs, hp, JsNum.mul1000]
  · intro s hs hp
    rw [ht]
    simp [configTimeout, hs, hp, JsNum.mul1000]

theorem C9_witness :
    getConfig ⟨some "key", none, none, some "7"⟩ =
      .ok ⟨"https://us.api.insight.rapid7.com", "key", "us", .int 7000⟩ ∧
    (⟨"https://us.api.insight.rapid7.com", "key", "us",
      .int 7000⟩ : Rapid7Config).timeout = .int (7 * 1000) := by
  have h : getConfig ⟨some "key", none, none, some "7"⟩ =
      .ok ⟨"https://us.api.insight.rapid7.com", "key", "us", .int 7000⟩ := rfl
  exact ⟨h, (C9_timeout_amended ⟨some "key", none, none, some "7"⟩ _ h).2.2.1 "7" 7 rfl rfl⟩
